import Mathlib

/-!
Verification of the notification subsystem of a real-estate operations
console front-end.  The development shallowly embeds the notification
store (`src/frontend/src/store/index.ts`, `useNotificationStore`), the
notification transport (`src/frontend/src/services/notifications.ts`:
`markNotificationRead`, `connectNotificationWebSocket`,
`disconnectNotificationWebSocket`) and the push-channel message handler,
and proves or refutes the specified properties of those operations.

JavaScript numbers holding ids and counters are embedded as `Int`
(every operation in the source is integer-valued: `+1`, `-1`, `.length`,
equality).  Stateful zustand mutations become pure state-transformer
functions on an explicit store record.  The asynchronous `await` of an
HTTP POST is embedded by passing the request's outcome
(`Except String Unit`) explicitly; a rejected `await` aborts the rest of
the function body, exactly as in the source.
-/

/-- The `Notification` entity, from `types/notification.ts`:
`id`, `user_id` numbers; `message` string; `type` a categorical tag
(kept as a string); `is_read` boolean; two optional back-references;
`created_at` an ISO timestamp string. -/
structure Notification where
  id : Int
  user_id : Int
  message : String
  type : String
  is_read : Bool
  related_lead_id : Option Int
  related_call_id : Option Int
  created_at : String
deriving Repr, DecidableEq

/-- The notification store's state: the held list and the unread
counter (`items`, `unreadCount` in `useNotificationStore`). -/
structure NotificationStore where
  items : List Notification
  unreadCount : Int
deriving Repr, DecidableEq

/-- The store's initial state: `items: [], unreadCount: 0`. -/
def initialStore : NotificationStore :=
  { items := [], unreadCount := 0 }

/-- `setNotifications(notifications)` from `store/index.ts`:
replaces `items` wholesale and recomputes `unreadCount` as
`notifications.filter((n) => !n.is_read).length`. -/
def setNotifications (notifications : List Notification)
    (_st : NotificationStore) : NotificationStore :=
  { items := notifications,
    unreadCount := (notifications.filter (fun n => !n.is_read)).length }

/-- `setUnreadCount(count)` from `store/index.ts`: overwrites the
counter, leaving `items` untouched. -/
def setUnreadCount (count : Int) (st : NotificationStore) :
    NotificationStore :=
  { st with unreadCount := count }

/-- `addNotification(notification)` from `store/index.ts`: prepends to
`items` and adds `notification.is_read ? 0 : 1` to `unreadCount`. -/
def addNotification (notification : Notification)
    (st : NotificationStore) : NotificationStore :=
  { items := notification :: st.items,
    unreadCount := st.unreadCount + (if notification.is_read then 0 else 1) }

/-- `markAsRead(id)` from `store/index.ts`: maps over `items` setting
`is_read: true` on entries whose `id` matches, and sets `unreadCount` to
`state.unreadCount > 0 ? state.unreadCount - 1 : 0`. -/
def markAsRead (id : Int) (st : NotificationStore) : NotificationStore :=
  { items := st.items.map (fun n =>
      if n.id = id then { n with is_read := true } else n),
    unreadCount := if st.unreadCount > 0 then st.unreadCount - 1 else 0 }

/-- The number of unread entries in a list, as the spec words it:
"the count of entries with `is_read = false`". -/
def countUnread (l : List Notification) : Nat :=
  l.countP (fun n => n.is_read = false)

/-- Applying a sequence of `addNotification` calls in order. -/
def runAdds (ns : List Notification) (st : NotificationStore) :
    NotificationStore :=
  match ns with
  | [] => st
  | n :: rest => runAdds rest (addNotification n st)

/-- A sample unread notification used in concrete scenarios. -/
def sampleUnread : Notification :=
  { id := 1, user_id := 1, message := "lead created", type := "lead_created",
    is_read := false, related_lead_id := some 3, related_call_id := none,
    created_at := "2025-01-01T00:00:00Z" }

/-- A sample already-read notification used in concrete scenarios. -/
def sampleRead : Notification :=
  { id := 9, user_id := 1, message := "report ready", type := "call_report",
    is_read := true, related_lead_id := none, related_call_id := some 4,
    created_at := "2025-01-02T00:00:00Z" }

/-- Agreement of two notifications on every field other than
`is_read`. -/
def sameExceptRead (a b : Notification) : Prop :=
  a.id = b.id ∧ a.user_id = b.user_id ∧ a.message = b.message ∧
  a.type = b.type ∧ a.related_lead_id = b.related_lead_id ∧
  a.related_call_id = b.related_call_id ∧ a.created_at = b.created_at

/-!
The notification transport (`services/notifications.ts`).

`markNotificationRead(id)` is `await api.post(...); markAsRead(id)`.
The embedding takes the POST's outcome as an explicit argument: on a
rejection the `await` re-throws, so the rest of the body never runs and
the store is returned untouched together with the propagated error.

The push channel: the module-level variable `ws` is embedded as an
optional connection identifier, and a counter supplies fresh
identifiers for `new WebSocket(...)`.  The identifiers of connections
that are live (created and not yet closed) are tracked explicitly so
that the "at most one live connection" invariant is expressible.
Browser semantics make `close()` take effect on the connection at once
(it stops delivering frames) while the socket's `close` *event* — and
with it the source's `onclose` handler, which unconditionally performs
`ws = null` on the module variable — fires asynchronously, as a later
event-loop turn.  Sockets whose close event is scheduled but not yet
delivered sit in `pendingClose`; the delivery itself is a separate
transport event.
-/

/-- State owned by the transport: the `ws` module variable (an optional
handle), the identifiers of live connections, the identifiers of closed
connections whose `close` event has not yet been delivered, and a
fresh-id counter standing for `new WebSocket(url)` allocation. -/
structure TransportState where
  ws : Option Nat
  live : List Nat
  pendingClose : List Nat
  nextId : Nat
deriving Repr, DecidableEq

/-- Transport state at module load: `ws = null`, nothing live. -/
def initialTransport : TransportState :=
  { ws := none, live := [], pendingClose := [], nextId := 0 }

/-- `someSocket.close()`: the connection stops being live immediately;
its `close` event (which runs the attached `onclose` handler) becomes
pending and is delivered later by the event loop. -/
def closeSocket (c : Nat) (ts : TransportState) : TransportState :=
  { ts with live := ts.live.filter (fun x => x ≠ c),
            pendingClose :=
              if c ∈ ts.live then c :: ts.pendingClose
              else ts.pendingClose }

/-- `connectNotificationWebSocket()` from `services/notifications.ts`:
returns immediately when no token is available; otherwise calls
`ws.close()` if the handle is non-null, then allocates a fresh socket
and stores its handle (the handle is overwritten, not nulled, between
the close and the assignment).  `tokenPresent` embeds the truthiness of
`useAuthStore.getState().token || localStorage.getItem('token')`. -/
def connectNotificationWebSocket (tokenPresent : Bool)
    (ts : TransportState) : TransportState :=
  if !tokenPresent then ts
  else
    let ts1 := match ts.ws with
      | some c => closeSocket c ts
      | none => ts
    { ts1 with ws := some ts1.nextId,
               live := ts1.nextId :: ts1.live,
               nextId := ts1.nextId + 1 }

/-- `disconnectNotificationWebSocket()` from
`services/notifications.ts`: `if (ws) \x7b ws.close(); ws = null; \x7d`. -/
def disconnectNotificationWebSocket (ts : TransportState) :
    TransportState :=
  match ts.ws with
  | some c => { closeSocket c ts with ws := none }
  | none => ts

/-- Delivery of the `close` event of socket `c` by the event loop: for
a socket closed earlier by `close()` the pending event is consumed; for
a live socket this is a server-initiated close.  Either way the
attached handler from the source, `ws.onclose = () => \x7b ws = null; \x7d`,
nulls the module variable unconditionally — even when `ws` meanwhile
points at a different, still-live socket. -/
def oncloseFires (c : Nat) (ts : TransportState) : TransportState :=
  if c ∈ ts.pendingClose then
    { ts with pendingClose := ts.pendingClose.filter (fun x => x ≠ c),
              ws := none }
  else if c ∈ ts.live then
    { ts with live := ts.live.filter (fun x => x ≠ c),
              ws := none }
  else ts

/-- Body of the `ws.onmessage` handler before the catch: parse the
frame as a `Notification` and feed it to `addNotification` (the toast
is presentation-only).  `JSON.parse` of an arbitrary frame is embedded
as an `Option Notification` argument; `none` (parse failure) is the
thrown exception, surfaced as `Except.error`. -/
def onmessageBody (parsed : Option Notification)
    (st : NotificationStore) : Except String NotificationStore :=
  match parsed with
  | some payload => Except.ok (addNotification payload st)
  | none => Except.error "SyntaxError: JSON.parse"

/-- The full `ws.onmessage` handler: the `try ... catch \x7b\x7d` wrapper
swallows any parse exception, leaving the store unchanged. -/
def onmessage (parsed : Option Notification)
    (st : NotificationStore) : NotificationStore :=
  match onmessageBody parsed st with
  | Except.ok st2 => st2
  | Except.error _ => st

/-- Arrival of one server-sent frame on connection `c`: the frame
reaches the `onmessage` handler exactly when `c` is still live (a frame
on a closed connection is never delivered); the handler never touches
the connection state. -/
def onFrame (c : Nat) (parsed : Option Notification)
    (ts : TransportState) (st : NotificationStore) :
    TransportState × NotificationStore :=
  if c ∈ ts.live then (ts, onmessage parsed st) else (ts, st)

/-- `markNotificationRead(id)` from `services/notifications.ts`:
`await api.post(...)` then `markAsRead(id)` on the store.  The POST's
outcome is the `postResult` argument; a rejected POST aborts the body
before `markAsRead` runs and propagates the error. -/
def markNotificationRead (postResult : Except String Unit) (id : Int)
    (st : NotificationStore) : NotificationStore × Except String Unit :=
  match postResult with
  | Except.error e => (st, Except.error e)
  | Except.ok _ => (markAsRead id st, Except.ok ())

/-- Events the transport reacts to through a session: the two exported
calls, and the event loop delivering a socket's `close` event. -/
inductive TransportEvent where
  | connect (tokenPresent : Bool)
  | disconnect
  | closeEvent (c : Nat)
deriving Repr, DecidableEq

/-- Whether the event is one of the two exported calls (as opposed to
an asynchronous `close`-event delivery by the event loop). -/
def TransportEvent.isCall : TransportEvent → Bool
  | TransportEvent.connect _ => true
  | TransportEvent.disconnect => true
  | TransportEvent.closeEvent _ => false

/-- One transport step. -/
def stepTransport (e : TransportEvent) (ts : TransportState) :
    TransportState :=
  match e with
  | TransportEvent.connect tokenPresent =>
      connectNotificationWebSocket tokenPresent ts
  | TransportEvent.disconnect => disconnectNotificationWebSocket ts
  | TransportEvent.closeEvent c => oncloseFires c ts

/-- Running a sequence of transport events in order. -/
def runTransport (es : List TransportEvent) (ts : TransportState) :
    TransportState :=
  match es with
  | [] => ts
  | e :: rest => runTransport rest (stepTransport e ts)

/-- Well-formedness maintained by the two exported calls: the live
connections are exactly the ones the handle designates (so at most one
is ever live), and every identifier in use is below the freshness
counter.  Asynchronous `close`-event delivery does NOT preserve this:
the `onclose` of a superseded socket nulls the handle while the current
socket stays live. -/
def TransportState.wf (ts : TransportState) : Prop :=
  ts.live = ts.ws.toList ∧ ∀ c ∈ ts.live, c < ts.nextId

/-! ### Helper lemmas (shared) -/

theorem wf_initialTransport : initialTransport.wf := by
  constructor
  · rfl
  · intro c hc
    simp [initialTransport] at hc

theorem connect_true_of_wf (ts : TransportState) (h : ts.wf) :
    (connectNotificationWebSocket true ts).ws = some ts.nextId ∧
    (connectNotificationWebSocket true ts).live = [ts.nextId] ∧
    (connectNotificationWebSocket true ts).nextId = ts.nextId + 1 := by
  obtain ⟨h1, _⟩ := h
  cases hw : ts.ws with
  | none =>
      rw [hw] at h1
      refine ⟨?_, ?_, ?_⟩ <;>
        simp [connectNotificationWebSocket, hw, h1]
  | some c =>
      rw [hw] at h1
      refine ⟨?_, ?_, ?_⟩ <;>
        simp [connectNotificationWebSocket, closeSocket, hw, h1]

theorem wf_connect (b : Bool) (ts : TransportState) (h : ts.wf) :
    (connectNotificationWebSocket b ts).wf := by
  cases b with
  | false => simpa [connectNotificationWebSocket] using h
  | true =>
      obtain ⟨hws, hlive, hnext⟩ := connect_true_of_wf ts h
      constructor
      · rw [hlive, hws]
        rfl
      · intro c hc
        rw [hlive] at hc
        rw [hnext]
        simp at hc
        omega

theorem wf_disconnect (ts : TransportState) (h : ts.wf) :
    (disconnectNotificationWebSocket ts).wf := by
  obtain ⟨h1, h2⟩ := h
  cases hw : ts.ws with
  | none => simpa [disconnectNotificationWebSocket, hw] using ⟨h1, h2⟩
  | some c =>
      rw [hw] at h1
      constructor
      · simp [disconnectNotificationWebSocket, closeSocket, hw, h1]
      · intro d hd
        simp [disconnectNotificationWebSocket, closeSocket, hw, h1] at hd

theorem wf_step (e : TransportEvent) (ts : TransportState)
    (hc : e.isCall = true) (h : ts.wf) : (stepTransport e ts).wf := by
  cases e with
  | connect b => exact wf_connect b ts h
  | disconnect => exact wf_disconnect ts h
  | closeEvent c => exact absurd hc (by simp [TransportEvent.isCall])

theorem wf_run (es : List TransportEvent) :
    ∀ ts : TransportState, (∀ e ∈ es, e.isCall = true) → ts.wf →
      (runTransport es ts).wf := by
  induction es with
  | nil => exact fun _ _ h => h
  | cons e rest ih =>
      intro ts hc h
      exact ih (stepTransport e ts)
        (fun x hx => hc x (List.mem_cons_of_mem e hx))
        (wf_step e ts (hc e (List.mem_cons_self e rest)) h)

theorem live_length_of_wf (ts : TransportState) (h : ts.wf) :
    ts.live.length ≤ 1 := by
  obtain ⟨h1, _⟩ := h
  rw [h1]
  cases ts.ws <;> simp

theorem countUnread_eq_filter_length (l : List Notification) :
    (countUnread l : Int) = ((l.filter (fun n => !n.is_read)).length : Int) := by
  have hpq : (fun n : Notification => decide (n.is_read = false)) =
      (fun n : Notification => !n.is_read) := by
    funext n
    cases hn : n.is_read <;> simp [hn]
  rw [countUnread, List.countP_eq_length_filter, hpq]

theorem addNotification_keeps_invariant (n : Notification)
    (st : NotificationStore)
    (h : st.unreadCount = (countUnread st.items : Int)) :
    (addNotification n st).unreadCount
      = (countUnread (addNotification n st).items : Int) := by
  cases hn : n.is_read with
  | true =>
      have hc : countUnread (n :: st.items) = countUnread st.items := by
        simp [countUnread, List.countP_cons, hn]
      simp [addNotification, hn, hc, h]
  | false =>
      have hc : countUnread (n :: st.items) = countUnread st.items + 1 := by
        simp [countUnread, List.countP_cons, hn]
      simp only [addNotification, hn, hc, h, if_false]
      push_cast
      ring

/-! ### Claim theorems -/

/-- C4: starting from the initial empty store, for every finite sequence
of `addNotification` calls, after each call `unreadCount` equals the
number of entries in `items` whose `is_read` is false.  The sequence
`ns` ranges over all finite lists, so the state after the k-th call of
any sequence is covered (it is the final state of the length-k prefix). -/
theorem unreadCount_matches_unread_items (ns : List Notification) :
    (runAdds ns initialStore).unreadCount
      = (countUnread (runAdds ns initialStore).items : Int) := by
  have main : ∀ (ms : List Notification) (st : NotificationStore),
      st.unreadCount = (countUnread st.items : Int) →
      (runAdds ms st).unreadCount
        = (countUnread (runAdds ms st).items : Int) := by
    intro ms
    induction ms with
    | nil => intro st h; exact h
    | cons m rest ih =>
        intro st h
        exact ih (addNotification m st) (addNotification_keeps_invariant m st h)
  exact main ns initialStore (by simp [initialStore, countUnread])

/-- C5: `setNotifications(list)` replaces `items` wholesale with `list`
and sets `unreadCount` to exactly the number of entries of `list` with
`is_read = false`; the result is independent of the prior store state
(no carry-over), for every input list including empty lists and lists
with duplicate ids. -/
theorem setNotifications_replaces_and_recounts (l : List Notification)
    (st st' : NotificationStore) :
    (setNotifications l st).items = l ∧
    (setNotifications l st).unreadCount = (countUnread l : Int) ∧
    setNotifications l st = setNotifications l st' := by
  refine ⟨rfl, ?_, rfl⟩
  rw [countUnread_eq_filter_length]
  rfl

/-- C6: `addNotification(entry)` prepends `entry` to `items` (so the
length always grows by one — no deduplication by id, even when the id
already occurs), increments `unreadCount` by 1 exactly when
`entry.is_read` is false and by 0 when it is true; and in the concrete
scenario `setUnreadCount(7)` then `addNotification` of a read entry,
`unreadCount` stays 7 while `items` has one more element. -/
theorem addNotification_prepends_spec (n : Notification)
    (st : NotificationStore) :
    (addNotification n st).items = n :: st.items ∧
    (addNotification n st).items.length = st.items.length + 1 ∧
    (n.is_read = false →
      (addNotification n st).unreadCount = st.unreadCount + 1) ∧
    (n.is_read = true →
      (addNotification n st).unreadCount = st.unreadCount) ∧
    (addNotification sampleRead (setUnreadCount 7 initialStore)).unreadCount
      = 7 ∧
    (addNotification sampleRead (setUnreadCount 7 initialStore)).items.length
      = 1 := by
  refine ⟨rfl, by simp [addNotification], ?_, ?_, by decide, by decide⟩
  · intro h; simp [addNotification, h]
  · intro h; simp [addNotification, h]

/-- Witness for `addNotification_prepends_spec` at a concrete unread
entry and the initial store. -/
theorem addNotification_prepends_spec_witness :
    (addNotification sampleUnread initialStore).unreadCount
      = initialStore.unreadCount + 1 :=
  (addNotification_prepends_spec sampleUnread initialStore).2.2.1 rfl

theorem markAsRead_items_map_id (id : Int) (l : List Notification)
    (h : ∀ n ∈ l, n.id ≠ id) :
    l.map (fun n => if n.id = id then { n with is_read := true } else n)
      = l := by
  induction l with
  | nil => rfl
  | cons a t ih =>
      have ha : a.id ≠ id := h a (List.mem_cons_self a t)
      simp only [List.map_cons, if_neg ha]
      rw [ih (fun n hn => h n (List.mem_cons_of_mem a hn))]

/-- C1 counterexample: with the reachable store state obtained by
`setUnreadCount(1)` on the initial store (`items = []`,
`unreadCount = 1`), `markAsRead(5)` is not a no-op even though no entry
with id 5 is present: the counter still drops to 0. -/
theorem markAsRead_absent_not_noop :
    markAsRead 5 (setUnreadCount 1 initialStore)
      ≠ setUnreadCount 1 initialStore := by
  decide

/-- C1 amended: `markAsRead(id)` sets `is_read = true` on every entry
with matching id and leaves `items` otherwise untouched (in particular
`items` is unchanged when no entry matches), but the unread counter is
decremented by 1 floored at 0 unconditionally — whether or not the
matching entry was previously unread, and even when no entry with that
id is present. -/
theorem markAsRead_amended (id : Int) (st : NotificationStore) :
    (markAsRead id st).unreadCount = max (st.unreadCount - 1) 0 ∧
    (markAsRead id st).items.length = st.items.length ∧
    (∀ n ∈ (markAsRead id st).items, n.id = id → n.is_read = true) ∧
    ((∀ n ∈ st.items, n.id ≠ id) → (markAsRead id st).items = st.items) := by
  refine ⟨?_, by simp [markAsRead], ?_, ?_⟩
  · simp only [markAsRead]
    split <;> omega
  · intro n hn hid
    simp only [markAsRead, List.mem_map] at hn
    obtain ⟨m, _, hm⟩ := hn
    by_cases h : m.id = id
    · rw [if_pos h] at hm
      rw [← hm]
    · rw [if_neg h] at hm
      rw [← hm] at hid
      exact absurd hid h
  · intro h
    exact markAsRead_items_map_id id st.items h

/-- Witness for `markAsRead_amended`: at the store `⟨[], 1⟩` and the
absent id 5, the counter drops to 0 while the (empty) item list is
unchanged. -/
theorem markAsRead_amended_witness :
    (markAsRead 5 (setUnreadCount 1 initialStore)).unreadCount = 0 ∧
    (markAsRead 5 (setUnreadCount 1 initialStore)).items
      = (setUnreadCount 1 initialStore).items := by
  have h := markAsRead_amended 5 (setUnreadCount 1 initialStore)
  refine ⟨by rw [h.1]; decide, h.2.2.2 ?_⟩
  intro n hn
  simp [setUnreadCount, initialStore] at hn

theorem markAsRead_items_idem (id : Int) (l : List Notification) :
    (l.map (fun n => if n.id = id then { n with is_read := true } else n)).map
        (fun n => if n.id = id then { n with is_read := true } else n)
      = l.map (fun n => if n.id = id then { n with is_read := true } else n) := by
  induction l with
  | nil => rfl
  | cons a t ih =>
      simp only [List.map_cons] at *
      rw [ih]
      by_cases h : a.id = id
      · simp [h]
      · simp [h]

/-- C2 counterexample: in the reachable store holding two unread
notifications (`unreadCount = 2`), `markAsRead(1)` applied twice gives
`unreadCount = 0` whereas applied once it gives `unreadCount = 1`, so
the double call differs from the single call. -/
theorem markAsRead_not_idempotent :
    markAsRead 1 (markAsRead 1
        (runAdds [sampleUnread, { sampleUnread with id := 2 }] initialStore))
      ≠ markAsRead 1
          (runAdds [sampleUnread, { sampleUnread with id := 2 }] initialStore) := by
  decide

/-- C2 amended: `markAsRead(id)` is idempotent on `items`, but the
counter is decremented (floored at 0) on every call, so the double call
equals the single call exactly when the starting `unreadCount` is at
most 1. -/
theorem markAsRead_idempotent_iff (id : Int) (st : NotificationStore) :
    (markAsRead id (markAsRead id st)).items = (markAsRead id st).items ∧
    ((markAsRead id (markAsRead id st)) = markAsRead id st ↔
      st.unreadCount ≤ 1) := by
  have hitems : (markAsRead id (markAsRead id st)).items
      = (markAsRead id st).items := markAsRead_items_idem id st.items
  refine ⟨hitems, ?_, ?_⟩
  · intro h
    have hu : (markAsRead id (markAsRead id st)).unreadCount
        = (markAsRead id st).unreadCount := by rw [h]
    simp only [markAsRead] at hu
    split_ifs at hu <;> omega
  · intro h
    have hu : (markAsRead id (markAsRead id st)).unreadCount
        = (markAsRead id st).unreadCount := by
      simp only [markAsRead]
      split_ifs <;> omega
    have heta : markAsRead id (markAsRead id st) =
        { items := (markAsRead id (markAsRead id st)).items,
          unreadCount := (markAsRead id (markAsRead id st)).unreadCount } := rfl
    rw [heta, hitems, hu]

/-- Witness for `markAsRead_idempotent_iff`: with a single unread
notification (`unreadCount = 1`) the double call does equal the single
call. -/
theorem markAsRead_idempotent_iff_witness :
    markAsRead 1 (markAsRead 1 (runAdds [sampleUnread] initialStore))
      = markAsRead 1 (runAdds [sampleUnread] initialStore) :=
  (markAsRead_idempotent_iff 1
    (runAdds [sampleUnread] initialStore)).2.mpr (by decide)

/-- C3 counterexample: with one unread notification in the store, when
the POST rejects (`Except.error`), `markNotificationRead` leaves the
store exactly as it was — while the claimed behavior (local mark-as-read
applied regardless of server outcome) would have produced the distinct
state `markAsRead 1 …`.  The local state does not change on failure. -/
theorem markNotificationRead_failure_counterexample :
    (markNotificationRead (Except.error "Network Error") 1
        (runAdds [sampleUnread] initialStore)).1
      = runAdds [sampleUnread] initialStore ∧
    markAsRead 1 (runAdds [sampleUnread] initialStore)
      ≠ runAdds [sampleUnread] initialStore := by
  exact ⟨rfl, by decide⟩

/-- C3 amended: `markNotificationRead` awaits the POST before touching
the store, so when the POST fails the local store is unchanged and the
error propagates to the caller; the local `markAsRead` is applied only
when the POST succeeds. -/
theorem markNotificationRead_awaits_post (e : String) (id : Int)
    (st : NotificationStore) :
    markNotificationRead (Except.error e) id st = (st, Except.error e) ∧
    markNotificationRead (Except.ok ()) id st
      = (markAsRead id st, Except.ok ()) :=
  ⟨rfl, rfl⟩

/-- C7: a push frame whose payload fails to parse as JSON is dropped
silently: the handler body's exception is caught (the handler itself
returns normally), the notification store is unchanged, and the
connection state is untouched, so the connection remains open. -/
theorem onmessage_drops_malformed_frame (c : Nat) (ts : TransportState)
    (st : NotificationStore) :
    onFrame c none ts st = (ts, st) ∧
    onmessageBody none st = Except.error "SyntaxError: JSON.parse" ∧
    onmessage none st = st := by
  refine ⟨?_, rfl, rfl⟩
  simp only [onFrame, onmessage, onmessageBody]
  split <;> rfl

/-- C9: `disconnectNotificationWebSocket` is idempotent: with a null
handle it changes nothing (and, being a total function, raises no
exception); with an open connection it closes it (the handle's
connection stops being live) and clears the handle; a second call
equals the first. -/
theorem disconnect_idempotent_safe (ts : TransportState) :
    (ts.ws = none → disconnectNotificationWebSocket ts = ts) ∧
    disconnectNotificationWebSocket (disconnectNotificationWebSocket ts)
      = disconnectNotificationWebSocket ts ∧
    (disconnectNotificationWebSocket ts).ws = none ∧
    (∀ c, ts.ws = some c →
      c ∉ (disconnectNotificationWebSocket ts).live) := by
  cases hw : ts.ws with
  | none =>
      refine ⟨fun _ => ?_, ?_, ?_, ?_⟩
      · simp [disconnectNotificationWebSocket, hw]
      · simp [disconnectNotificationWebSocket, hw]
      · simp [disconnectNotificationWebSocket, hw]
      · intro c hc
        exact absurd hc (by simp)
  | some d =>
      refine ⟨fun h => ?_, ?_, ?_, ?_⟩
      · exact absurd h (by simp)
      · simp [disconnectNotificationWebSocket, hw, closeSocket]
      · simp [disconnectNotificationWebSocket, hw, closeSocket]
      · intro c hc
        injection hc with hcd
        subst hcd
        simp [disconnectNotificationWebSocket, hw, closeSocket,
          List.mem_filter]

/-- Witness for `disconnect_idempotent_safe`: applied at the freshly
connected transport state, whose handle is `some 0`. -/
theorem disconnect_idempotent_safe_witness :
    (0 : Nat) ∉ (disconnectNotificationWebSocket
        (connectNotificationWebSocket true initialTransport)).live :=
  (disconnect_idempotent_safe
      (connectNotificationWebSocket true initialTransport)).2.2.2 0 rfl

/-- C8 counterexample: the at-most-one-live-connection invariant fails
once the asynchronous delivery of a superseded socket's `close` event
is interleaved between calls.  Trace: `connect()` creates socket 0;
a second `connect()` closes socket 0 and creates socket 1; socket 0's
deferred `close` event now fires and its handler nulls the shared
handle even though socket 1 is still live; the next `connect()` sees a
null handle, closes nothing, and creates socket 2 — leaving sockets 1
and 2 both live after a call to `connectNotificationWebSocket()`. -/
theorem two_live_connections_counterexample :
    (runTransport
        [TransportEvent.connect true, TransportEvent.connect true,
         TransportEvent.closeEvent 0, TransportEvent.connect true]
        initialTransport).live.length = 2 := by
  decide

/-- C8 amended: as long as no socket `close` event is delivered between
the calls — in particular for a `connect()` immediately following
another `connect()` — at most one live push connection exists after any
call: `connect()` with a token leaves exactly one live connection, the
previously held connection is no longer live afterwards (it was closed
before the new socket was created), and a single server-sent frame is
delivered to the store at most once (it either reaches the one
`onmessage` handler or is dropped).  The unrestricted claim is false:
see the interleaved-close-event trace. -/
theorem at_most_one_live_connection (es : List TransportEvent)
    (hcall : ∀ e ∈ es, e.isCall = true) :
    (runTransport es initialTransport).live.length ≤ 1 ∧
    (connectNotificationWebSocket true
        (runTransport es initialTransport)).live.length = 1 ∧
    (∀ c, (runTransport es initialTransport).ws = some c →
      c ∉ (connectNotificationWebSocket true
            (runTransport es initialTransport)).live) ∧
    (∀ c parsed st,
      (onFrame c parsed (runTransport es initialTransport) st).2 = st ∨
      (onFrame c parsed (runTransport es initialTransport) st).2
        = onmessage parsed st) := by
  have hwf := wf_run es initialTransport hcall wf_initialTransport
  obtain ⟨hws, hlive, hnext⟩ := connect_true_of_wf _ hwf
  refine ⟨live_length_of_wf _ hwf, ?_, ?_, ?_⟩
  · rw [hlive]
    rfl
  · intro c hc
    rw [hlive]
    have hcin : c ∈ (runTransport es initialTransport).live := by
      rw [hwf.1, hc]
      simp
    have hlt := hwf.2 c hcin
    simp only [List.mem_singleton]
    omega
  · intro c parsed st
    simp only [onFrame]
    split
    · right; rfl
    · left; rfl

/-- Witness for `at_most_one_live_connection`: after `connect()` the
handle is `some 0`, and a second `connect()` closes connection 0. -/
theorem at_most_one_live_connection_witness :
    (0 : Nat) ∉ (connectNotificationWebSocket true
        (runTransport [TransportEvent.connect true]
          initialTransport)).live :=
  (at_most_one_live_connection [TransportEvent.connect true]
    (by intro e he; simp at he; rw [he]; rfl)).2.2.1 0 rfl

theorem get_map_mark (f : Notification → Notification)
    (l : List Notification) (i : Nat) (h1 : i < l.length)
    (h2 : i < (l.map f).length) :
    (l.map f).get ⟨i, h2⟩ = f (l.get ⟨i, h1⟩) := by
  simp [List.get_eq_getElem, List.getElem_map]

/-- C10: the store operations never rewrite an entry that remains in
the store except for its `is_read` flag: `addNotification` leaves every
pre-existing entry untouched (they are exactly the tail of the new
list), and `markAsRead` preserves the length and, position by position,
every field except `is_read`, while `is_read` never transitions from
true back to false. -/
theorem store_ops_frame_read_only (st : NotificationStore) :
    (∀ n, (addNotification n st).items.tail = st.items) ∧
    (∀ id, (markAsRead id st).items.length = st.items.length) ∧
    (∀ id i (h1 : i < st.items.length)
        (h2 : i < (markAsRead id st).items.length),
      sameExceptRead (st.items.get ⟨i, h1⟩)
          ((markAsRead id st).items.get ⟨i, h2⟩) ∧
      ((st.items.get ⟨i, h1⟩).is_read = true →
        ((markAsRead id st).items.get ⟨i, h2⟩).is_read = true)) := by
  refine ⟨?_, ?_, ?_⟩
  · intro n
    rfl
  · intro id
    simp [markAsRead]
  intro id i h1 h2
  have hg : (markAsRead id st).items.get ⟨i, h2⟩
      = (fun n => if n.id = id then { n with is_read := true } else n)
          (st.items.get ⟨i, h1⟩) :=
    get_map_mark _ st.items i h1 h2
  rw [hg]
  by_cases h : (st.items.get ⟨i, h1⟩).id = id
  · simp only [if_pos h]
    exact ⟨⟨rfl, rfl, rfl, rfl, rfl, rfl, rfl⟩, fun _ => True.intro⟩
  · simp only [if_neg h]
    exact ⟨⟨rfl, rfl, rfl, rfl, rfl, rfl, rfl⟩, fun hr => hr⟩

/-- Witness for `store_ops_frame_read_only`: the already-read sample
entry stays read (and all its other fields intact) through
`markAsRead` of its own id. -/
theorem store_ops_frame_read_only_witness :
    ((markAsRead 9 (runAdds [sampleRead] initialStore)).items.get
        ⟨0, by decide⟩).is_read = true := by
  have h := (store_ops_frame_read_only
      (runAdds [sampleRead] initialStore)).2.2 9 0 (by decide) (by decide)
  exact h.2 (by decide)
